import Mathlib

/-!
Verification development for the result-view panel subsystem of the
`vscode-powerquery-sdk` repository (file `src/panels/PqTestResultViewPanel.ts`).

The subsystem consists of:
* `SimplePqTestResultViewBroker` — a reactive value broker with a fixed record
  of named slots (`values`), each slot a `ValueEventEmitter` holding a current
  value and a subscriber list;
* `PqTestResultViewPanel` — a process-wide singleton wrapping one live webview
  panel (`currentPanel`), with `createOrShow` / `revive` / `dispose` lifecycle
  and a message channel to the embedded webview.

The embedding is a state-passing translation: the mutable module state
(`SimplePqTestResultViewBroker.values` plus `PqTestResultViewPanel.currentPanel`)
becomes an explicit `SysState`; calls into the host platform (posting a message
to the webview, creating/revealing/disposing a panel, executing a command,
invoking an external subscriber callback) become `Event`s collected in a trace.
Subscriber callbacks are defunctionalized: the relay closure registered by
`SimplePqTestResultViewBroker.activate` becomes `Subscriber.relay`, and an
arbitrary external callback becomes `Subscriber.consumer` identified by a
number.
-/

namespace PQSdk

/-- Untyped payload values relayed by the broker. The TS code treats payloads
as `any` and never constructs or inspects them, so any universe of
distinguishable values is adequate; this one has `undef` (JavaScript
`undefined`, the initial value of the `latestPqTestResult` slot), booleans,
strings, and single-field objects `{k: v}`, enough to express the
specification's scenario value `{ok: true}`. -/
inductive PQValue where
  | undef : PQValue
  | boolV : Bool → PQValue
  | strV : String → PQValue
  | objV : String → PQValue → PQValue
deriving DecidableEq, Repr

/-- The JSON value `{ok: true}` used in the specification's scenario. -/
def okTrue : PQValue := PQValue.objV "ok" (PQValue.boolV true)

/-- A disposable owned by the panel (a listener registration pushed into
`this._disposables`). `throws` models whether its host-provided `dispose()`
raises when invoked — external behavior, supplied as an input. -/
structure OwnedDisposable where
  id : Nat
  throws : Bool
deriving DecidableEq, Repr

/-- The live panel instance (`PqTestResultViewPanel`): its owned disposables
list `this._disposables`, in registration order. -/
structure Panel where
  disposables : List OwnedDisposable
deriving DecidableEq, Repr

/-- Defunctionalized subscriber callbacks of a `ValueEventEmitter`:
`relay prop` is the closure registered by `SimplePqTestResultViewBroker.activate`
for property `prop` (it posts an `OnOneValueUpdated` message to the current
panel, if any); `consumer id` is an arbitrary external callback. -/
inductive Subscriber where
  | relay : String → Subscriber
  | consumer : Nat → Subscriber
deriving DecidableEq, Repr

/-- Observable effects: host-platform calls and external-callback invocations. -/
inductive Event where
  /-- `vscode.commands.executeCommand cmd` (fire-and-forget). -/
  | executeCommand : String → Event
  /-- `vscode.window.createWebviewPanel ...`. -/
  | createPanel : Event
  /-- `this.currentPanel._panel.reveal()`. -/
  | reveal : Event
  /-- `this._update()`: sets the panel title and webview html. -/
  | updateHtml : Event
  /-- `webview.postMessage({type, payload})` where the payload is
  `{property, value}` (the `postOneMessage` path). -/
  | post : String → String → PQValue → Event
  /-- An external consumer callback `id` invoked with a value. -/
  | consumerCall : Nat → PQValue → Event
  /-- `this._panel.dispose()` (disposing the webview surface). -/
  | surfaceDispose : Event
  /-- `disposable.dispose()` invoked on the owned disposable `id`. -/
  | disposableCall : Nat → Event
deriving DecidableEq, Repr

/-- Modelled from the spec: the class `ValueEventEmitter` lives in
`common/ValueEventEmitter`, which is not among the provided sources; the spec
(§3, §4.1) describes each slot as holding `currentValue` and an ordered
subscriber list, where subscribe appends, emit stores then invokes every
subscriber in order with the new value, and dispose clears the list. -/
structure ValueEventEmitter where
  currentValue : PQValue
  subscribers : List Subscriber
deriving DecidableEq, Repr

/-- dispatch one subscriber callback with value `v`; the relay closure reads
`PqTestResultViewPanel.currentPanel` at invocation time and posts
`{type: "OnOneValueUpdated", payload: {property, value}}` when a panel exists
(`currentPanel?.postOneMessage(...)`), and does nothing otherwise. -/
def invokeSubscriber (panel : Option Panel) (v : PQValue) : Subscriber → List Event
  | Subscriber.relay prop =>
    match panel with
    | some _ => [Event.post "OnOneValueUpdated" prop v]
    | none => []
  | Subscriber.consumer id => [Event.consumerCall id v]

namespace ValueEventEmitter

/-- Modelled from the spec: `subscribe(callback)` appends the callback to the
slot's subscriber list (§4.1). -/
def subscribe (e : ValueEventEmitter) (sub : Subscriber) : ValueEventEmitter :=
  { e with subscribers := e.subscribers ++ [sub] }

/-- Modelled from the spec: emitting a new value stores it, then synchronously
invokes, in subscription order, every currently registered subscriber with the
new value (§4.1). The relay's behavior depends on the current panel, passed in. -/
def emitWith (panel : Option Panel) (e : ValueEventEmitter) (v : PQValue) :
    ValueEventEmitter × List Event :=
  ({ e with currentValue := v }, e.subscribers.flatMap (invokeSubscriber panel v))

/-- Modelled from the spec: `emit()` with no argument re-publishes the current
value to the current subscribers (§4.1 `emitAll` re-invokes current values). -/
def emitCurrentWith (panel : Option Panel) (e : ValueEventEmitter) :
    ValueEventEmitter × List Event :=
  e.emitWith panel e.currentValue

/-- Modelled from the spec: `dispose()` clears the subscriber list; the stored
value is kept (§4.1: after deactivation, emits still update `currentValue`). -/
def disposeEmitter (e : ValueEventEmitter) : ValueEventEmitter :=
  { e with subscribers := [] }

end ValueEventEmitter

/-- The module state: the broker's fixed slot record
(`SimplePqTestResultViewBroker.values`, an association list in property
enumeration order) together with the panel singleton
(`PqTestResultViewPanel.currentPanel`). -/
structure SysState where
  slots : List (String × ValueEventEmitter)
  currentPanel : Option Panel
deriving DecidableEq, Repr

/-- The state at module load: `values` holds the single slot
`latestPqTestResult` initialized with `new ValueEventEmitter(undefined)`,
and no panel exists. -/
def initialState : SysState :=
  { slots := [("latestPqTestResult", { currentValue := PQValue.undef, subscribers := [] })],
    currentPanel := none }

/-- Look up a slot by name (first match in enumeration order). -/
def lookupSlot (s : SysState) (name : String) : Option ValueEventEmitter :=
  (s.slots.find? (fun p => p.1 = name)).map (·.2)

namespace SimplePqTestResultViewBroker

/-- `activate()`: `for (const oneProperty in this.values)` subscribe the relay
closure for that property (`this.values[oneProperty].subscribe(nextValue => currentPanel?.postOneMessage("OnOneValueUpdated", {property: oneProperty, value: nextValue}))`). -/
def activate (s : SysState) : SysState :=
  { s with slots := s.slots.map (fun p => (p.1, p.2.subscribe (Subscriber.relay p.1))) }

/-- The body of `emitAll()`'s loop: `this.values[oneProperty].emit()` for each
property in enumeration order, threading the slot record and collecting the
events. The panel reference is read at invocation time (it is not modified by
any emit). -/
def emitAllGo (panel : Option Panel) :
    List (String × ValueEventEmitter) → List (String × ValueEventEmitter) × List Event
  | [] => ([], [])
  | (n, e) :: rest =>
    let r := e.emitCurrentWith panel
    let rr := emitAllGo panel rest
    ((n, r.1) :: rr.1, r.2 ++ rr.2)

/-- `emitAll()`: re-emit every slot's current value to its subscribers. -/
def emitAll (s : SysState) : SysState × List Event :=
  let r := emitAllGo s.currentPanel s.slots
  ({ s with slots := r.1 }, r.2)

/-- `deActivate()`: `this.values[oneProperty].dispose()` for each property. -/
def deActivate (s : SysState) : SysState :=
  { s with slots := s.slots.map (fun p => (p.1, p.2.disposeEmitter)) }

/-- A producer setting a value on the named slot
(`SimplePqTestResultViewBroker.values[name].emit(v)`): store `v` on that
slot and invoke its subscribers, leaving the other slots untouched. -/
def emitOnSlotGo (panel : Option Panel) (name : String) (v : PQValue) :
    List (String × ValueEventEmitter) → List (String × ValueEventEmitter) × List Event
  | [] => ([], [])
  | (n, e) :: rest =>
    if n = name then
      let r := e.emitWith panel v
      ((n, r.1) :: rest, r.2)
    else
      let rr := emitOnSlotGo panel name v rest
      ((n, e) :: rr.1, rr.2)

/-- Emit value `v` on the slot called `name`. -/
def emitOnSlot (s : SysState) (name : String) (v : PQValue) : SysState × List Event :=
  let r := emitOnSlotGo s.currentPanel name v s.slots
  ({ s with slots := r.1 }, r.2)

/-- Append a subscriber to the (first) slot called `name` in the record. -/
def subscribeOnSlotGo (name : String) (sub : Subscriber) :
    List (String × ValueEventEmitter) → List (String × ValueEventEmitter)
  | [] => []
  | (n, e) :: rest =>
    if n = name then (n, e.subscribe sub) :: rest
    else (n, e) :: subscribeOnSlotGo name sub rest

/-- Subscribe an external callback on the slot called `name`
(`SimplePqTestResultViewBroker.values[name].subscribe(cb)`). -/
def subscribeOnSlot (s : SysState) (name : String) (sub : Subscriber) : SysState :=
  { s with slots := subscribeOnSlotGo name sub s.slots }

end SimplePqTestResultViewBroker

/-- An inbound message from the webview; the handler only inspects its
`type` field. -/
structure InboundMessage where
  type : String
deriving DecidableEq, Repr

namespace PqTestResultViewPanel

/-- The constructor (`new PqTestResultViewPanel(panel, extensionUri)`): calls
`this._update()` (one html render), then registers three listeners —
`onDidDispose`, `onDidChangeViewState`, `onDidReceiveMessage` — each pushing a
disposable registration into `this._disposables` (ids 0, 1, 2 in registration
order). Whether each registration's host `dispose()` throws is external
behavior, supplied by `tb`. -/
def construct (tb : Nat → Bool) : Panel × List Event :=
  ({ disposables := [⟨0, tb 0⟩, ⟨1, tb 1⟩, ⟨2, tb 2⟩] }, [Event.updateHtml])

/-- `createOrShow(extensionUri)`: if `this.currentPanel` exists, reveal it and
return; otherwise fire `executeCommand("workbench.action.editorLayoutTwoColumns")`
(result swallowed), create a webview panel, and store the new wrapper in
`this.currentPanel`. -/
def createOrShow (tb : Nat → Bool) (s : SysState) : SysState × List Event :=
  match s.currentPanel with
  | some _ => (s, [Event.reveal])
  | none =>
    let r := construct tb
    ({ s with currentPanel := some r.1 },
      Event.executeCommand "workbench.action.editorLayoutTwoColumns"
        :: Event.createPanel :: r.2)

/-- `revive(panel, extensionUri)`: unconditionally wrap the host-supplied panel
and store it in `this.currentPanel`. -/
def revive (tb : Nat → Bool) (s : SysState) : SysState × List Event :=
  let r := construct tb
  ({ s with currentPanel := some r.1 }, r.2)

/-- The `onDidReceiveMessage` handler: `switch (message.type) { case "onReady":
SimplePqTestResultViewBroker.emitAll() }` — any other type falls through the
switch with no effect. -/
def handleMessage (s : SysState) (msg : InboundMessage) : SysState × List Event :=
  if msg.type = "onReady" then SimplePqTestResultViewBroker.emitAll s
  else (s, [])

/-- The `while (this._disposables.length)` loop body applied to the pop order
(last registered first): call `disposable.dispose()` on each; a call that
throws propagates out of the loop (there is no try/catch), leaving the rest
uncalled. Returns the dispose-call events and whether the loop completed
without an exception. -/
def releaseAll : List OwnedDisposable → List Event × Bool
  | [] => ([], true)
  | d :: rest =>
    if d.throws then ([Event.disposableCall d.id], false)
    else
      let r := releaseAll rest
      (Event.disposableCall d.id :: r.1, r.2)

/-- `dispose()`: first clear `PqTestResultViewPanel.currentPanel`, then
`this._panel.dispose()` (whether this host call throws is the external input
`surfaceThrows`; if it does, the loop never runs), then pop and dispose every
owned disposable. Returns the new state, the events, and whether the method
returned normally. -/
def dispose (surfaceThrows : Bool) (s : SysState) (p : Panel) :
    SysState × List Event × Bool :=
  let s1 := { s with currentPanel := none }
  if surfaceThrows then (s1, [Event.surfaceDispose], false)
  else
    let r := releaseAll p.disposables.reverse
    (s1, Event.surfaceDispose :: r.1, r.2)

end PqTestResultViewPanel

/-! ### Helper lemmas -/

/-- When no owned disposable's release throws, the dispose loop calls
`dispose()` once on each, in list order, and completes normally. -/
theorem releaseAll_no_throws (ds : List OwnedDisposable)
    (h : ∀ d ∈ ds, d.throws = false) :
    PqTestResultViewPanel.releaseAll ds
      = (ds.map (fun d => Event.disposableCall d.id), true) := by
  induction ds with
  | nil => rfl
  | cons d rest ih =>
    have hd := h d (List.mem_cons_self d rest)
    have hr : ∀ x ∈ rest, x.throws = false := fun x hx => h x (List.mem_cons_of_mem d hx)
    simp [PqTestResultViewPanel.releaseAll, hd, ih hr]

/-- `emitAll`'s loop leaves every slot unchanged (each slot re-stores its own
current value) and its trace invokes, slot by slot in enumeration order, every
subscriber with that slot's current value. -/
theorem emitAllGo_spec (panel : Option Panel) (l : List (String × ValueEventEmitter)) :
    SimplePqTestResultViewBroker.emitAllGo panel l
      = (l, l.flatMap (fun q =>
          q.2.subscribers.flatMap (invokeSubscriber panel q.2.currentValue))) := by
  induction l with
  | nil => rfl
  | cons q rest ih =>
    simp [SimplePqTestResultViewBroker.emitAllGo, ih,
      ValueEventEmitter.emitCurrentWith, ValueEventEmitter.emitWith]

/-- Folding a sequence of `subscribe` calls appends the consumers to the
subscriber list in call order, leaving the stored value untouched. -/
theorem foldl_subscribe_spec (e : ValueEventEmitter) (cs : List Nat) :
    cs.foldl (fun acc i => acc.subscribe (Subscriber.consumer i)) e
      = { currentValue := e.currentValue,
          subscribers := e.subscribers ++ cs.map Subscriber.consumer } := by
  induction cs generalizing e with
  | nil => simp
  | cons c rest ih =>
    rw [List.foldl_cons, ih]
    simp [ValueEventEmitter.subscribe]

/-- Dispatching a list of consumer callbacks yields one invocation per
consumer, in list order, each carrying the emitted value. -/
theorem flatMap_consumers (po : Option Panel) (v : PQValue) (cs : List Nat) :
    (cs.map Subscriber.consumer).flatMap (invokeSubscriber po v)
      = cs.map (fun i => Event.consumerCall i v) := by
  induction cs with
  | nil => rfl
  | cons c rest ih => simp [invokeSubscriber, ih]

/-- `find?` over a key-preserving map of a slot record commutes with the map. -/
theorem find?_map_key_preserving (f : String → ValueEventEmitter → ValueEventEmitter)
    (name : String) (l : List (String × ValueEventEmitter)) :
    (l.map (fun q => (q.1, f q.1 q.2))).find? (fun q => q.1 = name)
      = (l.find? (fun q => q.1 = name)).map (fun q => (q.1, f q.1 q.2)) := by
  induction l with
  | nil => rfl
  | cons q rest ih =>
    by_cases hq : q.1 = name <;> simp [List.find?_cons, hq, ih]

/-- Emitting on a named slot: the trace invokes exactly the found slot's
subscribers with the new value (empty when no slot matches), and the found
slot's stored value becomes the new value while all other entries are kept. -/
theorem emitOnSlotGo_spec (panel : Option Panel) (name : String) (v : PQValue)
    (l : List (String × ValueEventEmitter)) :
    (SimplePqTestResultViewBroker.emitOnSlotGo panel name v l).2
      = ((l.find? (fun q => q.1 = name)).map
          (fun q => q.2.subscribers.flatMap (invokeSubscriber panel v))).getD [] ∧
    (SimplePqTestResultViewBroker.emitOnSlotGo panel name v l).1.find?
        (fun q => q.1 = name)
      = (l.find? (fun q => q.1 = name)).map
          (fun q => (q.1, { q.2 with currentValue := v })) := by
  induction l with
  | nil => exact ⟨rfl, rfl⟩
  | cons q rest ih =>
    obtain ⟨n, e⟩ := q
    by_cases hn : n = name
    · simp [SimplePqTestResultViewBroker.emitOnSlotGo, hn, List.find?_cons,
        ValueEventEmitter.emitWith]
    · simp [SimplePqTestResultViewBroker.emitOnSlotGo, hn, List.find?_cons, ih]

/-! ### Claims -/

/-- Claim C1: at most one live `PqTestResultViewPanel` instance exists: while
an instance exists, `createOrShow` only reveals the existing surface (no
creation event, state unchanged); from the no-instance state, two consecutive
`createOrShow` invocations perform exactly one panel creation and zero reveals
on the first, and the second is exactly a reveal of the stored instance. -/
theorem panel_singleton_createOrShow (tb : Nat → Bool) (s : SysState) :
    (∀ p, s.currentPanel = some p →
      PqTestResultViewPanel.createOrShow tb s = (s, [Event.reveal])) ∧
    (s.currentPanel = none →
      ((PqTestResultViewPanel.createOrShow tb s).2.count Event.createPanel = 1 ∧
       (PqTestResultViewPanel.createOrShow tb s).2.count Event.reveal = 0 ∧
       PqTestResultViewPanel.createOrShow tb ((PqTestResultViewPanel.createOrShow tb s).1)
         = ((PqTestResultViewPanel.createOrShow tb s).1, [Event.reveal]))) := by
  constructor
  · intro p hp
    simp [PqTestResultViewPanel.createOrShow, hp]
  · intro hn
    refine ⟨?_, ?_, ?_⟩ <;>
      simp [PqTestResultViewPanel.createOrShow, PqTestResultViewPanel.construct, hn,
        List.count_cons, List.count_nil]

/-- Claim C1 witness: concrete run from the initial state. -/
theorem panel_singleton_createOrShow_witness :
    (PqTestResultViewPanel.createOrShow (fun _ => false) initialState).2.count
        Event.createPanel = 1 ∧
    PqTestResultViewPanel.createOrShow (fun _ => false)
        ((PqTestResultViewPanel.createOrShow (fun _ => false) initialState).1)
      = ((PqTestResultViewPanel.createOrShow (fun _ => false) initialState).1,
         [Event.reveal]) := by
  have h := (panel_singleton_createOrShow (fun _ => false) initialState).2 rfl
  exact ⟨h.1, h.2.2⟩

/-- Claim C2: the webview message handler performs exactly one `emitAll` broker
call when the inbound message's `type` is `"onReady"`, and for any other type
it performs no broker call, changes no state, and raises no error. -/
theorem handleMessage_recognizes_onReady_only (s : SysState) (msg : InboundMessage) :
    (msg.type = "onReady" →
      PqTestResultViewPanel.handleMessage s msg = SimplePqTestResultViewBroker.emitAll s) ∧
    (msg.type ≠ "onReady" →
      PqTestResultViewPanel.handleMessage s msg = (s, [])) := by
  constructor
  · intro h
    simp [PqTestResultViewPanel.handleMessage, h]
  · intro h
    simp [PqTestResultViewPanel.handleMessage, h]

/-- Claim C2 witness: an `onReady` message and an unrecognized message at the
initial state. -/
theorem handleMessage_recognizes_onReady_only_witness :
    PqTestResultViewPanel.handleMessage initialState { type := "onReady" }
      = SimplePqTestResultViewBroker.emitAll initialState ∧
    PqTestResultViewPanel.handleMessage initialState { type := "somethingElse" }
      = (initialState, []) :=
  ⟨(handleMessage_recognizes_onReady_only initialState { type := "onReady" }).1 rfl,
   (handleMessage_recognizes_onReady_only initialState { type := "somethingElse" }).2
     (by decide)⟩

/-- Claim C3 counterexample: releases are not fault-isolated. With owned
disposables `[⟨0, benign⟩, ⟨1, throwing⟩]`, the pop-order loop calls
`dispose()` on disposable 1 first, the raised error aborts the loop, and
disposable 0 — though in the owned list — is never released (zero calls,
not exactly one). -/
theorem dispose_throwing_release_blocks_rest :
    (⟨0, false⟩ : OwnedDisposable) ∈ (Panel.mk [⟨0, false⟩, ⟨1, true⟩]).disposables ∧
    (PqTestResultViewPanel.dispose false initialState
        (Panel.mk [⟨0, false⟩, ⟨1, true⟩])).2.1.count (Event.disposableCall 0) = 0 := by
  decide

/-- Claim C3 (amended): when the panel transitions to Disposed, the singleton
reference is cleared and, provided no release throws, every owned disposable is
released exactly once, in reverse registration order, and the method returns
normally; releases are not fault-isolated — a release that throws aborts the
remaining releases. -/
theorem dispose_releases_in_reverse_order (s : SysState) (p : Panel)
    (h : ∀ d ∈ p.disposables, d.throws = false) :
    (PqTestResultViewPanel.dispose false s p).1.currentPanel = none ∧
    (PqTestResultViewPanel.dispose false s p).2.1
      = Event.surfaceDispose
          :: p.disposables.reverse.map (fun d => Event.disposableCall d.id) ∧
    (PqTestResultViewPanel.dispose false s p).2.2 = true := by
  have h' : ∀ d ∈ p.disposables.reverse, d.throws = false := by
    intro d hd
    exact h d (List.mem_reverse.mp hd)
  simp [PqTestResultViewPanel.dispose, releaseAll_no_throws _ h']

/-- Claim C3 (amended) witness: the three listener registrations of a freshly
constructed panel, none throwing, are released in reverse registration order. -/
theorem dispose_releases_in_reverse_order_witness :
    (PqTestResultViewPanel.dispose false initialState
        (Panel.mk [⟨0, false⟩, ⟨1, false⟩, ⟨2, false⟩])).2.1
      = [Event.surfaceDispose, Event.disposableCall 2, Event.disposableCall 1,
         Event.disposableCall 0] := by
  have h := dispose_releases_in_reverse_order initialState
      (Panel.mk [⟨0, false⟩, ⟨1, false⟩, ⟨2, false⟩]) (by decide)
  simpa using h.2.1

/-- Claim C4: a relay invocation sends exactly one outbound envelope, and in
the spec's scenario — broker activated, panel existing — emitting `{ok: true}`
on slot `"latestPqTestResult"` delivers downstream exactly one envelope
`{type: "OnOneValueUpdated", payload: {property: "latestPqTestResult",
value: {ok: true}}}`. -/
theorem relay_posts_one_envelope_per_update (tb : Nat → Bool) (p : Panel)
    (prop : String) (v : PQValue) :
    invokeSubscriber (some p) v (Subscriber.relay prop)
      = [Event.post "OnOneValueUpdated" prop v] ∧
    (SimplePqTestResultViewBroker.emitOnSlot
        ((PqTestResultViewPanel.createOrShow tb
            (SimplePqTestResultViewBroker.activate initialState)).1)
        "latestPqTestResult" okTrue).2
      = [Event.post "OnOneValueUpdated" "latestPqTestResult" okTrue] :=
  ⟨rfl, rfl⟩

/-- Claim C5: emitting a new value on a slot, after any sequence of external
subscriptions, stores the new value and invokes every registered subscriber
exactly once, in subscription order, with that value. -/
theorem emit_invokes_subscribers_in_order (po : Option Panel) (v v0 : PQValue)
    (cs : List Nat) :
    ValueEventEmitter.emitWith po
        (cs.foldl (fun acc i => acc.subscribe (Subscriber.consumer i))
          { currentValue := v0, subscribers := [] }) v
      = ({ currentValue := v, subscribers := cs.map Subscriber.consumer },
         cs.map (fun i => Event.consumerCall i v)) := by
  rw [foldl_subscribe_spec]
  simp [ValueEventEmitter.emitWith, flatMap_consumers]

/-- Claim C6: `emitAll()` re-delivers rather than diffs: it leaves the state
unchanged and, for every slot in enumeration order, invokes all of that slot's
currently registered subscribers with the slot's latest stored value —
unconditionally, whether or not the value changed since the last emit. -/
theorem emitAll_redelivers_current_values (s : SysState) :
    SimplePqTestResultViewBroker.emitAll s
      = (s, s.slots.flatMap (fun q =>
          q.2.subscribers.flatMap (invokeSubscriber s.currentPanel q.2.currentValue))) := by
  simp [SimplePqTestResultViewBroker.emitAll, emitAllGo_spec]

/-- Claim C7: after `deActivate()`, an emit on any existing slot stores the new
value as its `currentValue` while invoking zero subscribers. -/
theorem deActivate_then_emit_stores_without_delivery (s : SysState) (name : String)
    (v : PQValue) (e : ValueEventEmitter)
    (h : lookupSlot s name = some e) :
    (SimplePqTestResultViewBroker.emitOnSlot
        (SimplePqTestResultViewBroker.deActivate s) name v).2 = [] ∧
    lookupSlot (SimplePqTestResultViewBroker.emitOnSlot
        (SimplePqTestResultViewBroker.deActivate s) name v).1 name
      = some { currentValue := v, subscribers := [] } := by
  cases hf : s.slots.find? (fun q => q.1 = name) with
  | none => simp [lookupSlot, hf] at h
  | some q0 =>
    have hspec := emitOnSlotGo_spec
      (SimplePqTestResultViewBroker.deActivate s).currentPanel name v
      (SimplePqTestResultViewBroker.deActivate s).slots
    have hfind : (SimplePqTestResultViewBroker.deActivate s).slots.find?
        (fun q => q.1 = name) = some (q0.1, q0.2.disposeEmitter) := by
      simpa [SimplePqTestResultViewBroker.deActivate,
        find?_map_key_preserving (fun _ x => x.disposeEmitter) name] using
          congrArg (Option.map (fun q => (q.1, q.2.disposeEmitter))) hf
    constructor
    · have := hspec.1
      rw [hfind] at this
      simpa [SimplePqTestResultViewBroker.emitOnSlot,
        ValueEventEmitter.disposeEmitter] using this
    · have := hspec.2
      rw [hfind] at this
      simpa [SimplePqTestResultViewBroker.emitOnSlot, lookupSlot,
        ValueEventEmitter.disposeEmitter] using congrArg (Option.map (·.2)) this

/-- Claim C7 witness: deactivate the initial state and emit a string on the
`latestPqTestResult` slot. -/
theorem deActivate_then_emit_stores_without_delivery_witness :
    (SimplePqTestResultViewBroker.emitOnSlot
        (SimplePqTestResultViewBroker.deActivate initialState)
        "latestPqTestResult" (PQValue.strV "x")).2 = [] ∧
    lookupSlot (SimplePqTestResultViewBroker.emitOnSlot
        (SimplePqTestResultViewBroker.deActivate initialState)
        "latestPqTestResult" (PQValue.strV "x")).1 "latestPqTestResult"
      = some { currentValue := PQValue.strV "x", subscribers := [] } :=
  deActivate_then_emit_stores_without_delivery initialState "latestPqTestResult"
    (PQValue.strV "x") { currentValue := PQValue.undef, subscribers := [] } rfl

/-- Claim C8: `activate()` is not idempotent: a second call appends a second
relay subscriber to every slot, so a single subsequent value update on the
slot (panel present) produces two identical outbound envelopes instead of one. -/
theorem activate_twice_double_subscribes (s : SysState) (tb : Nat → Bool)
    (v : PQValue) :
    (SimplePqTestResultViewBroker.activate
        (SimplePqTestResultViewBroker.activate s)).slots
      = s.slots.map (fun q => (q.1,
          { q.2 with subscribers := q.2.subscribers
              ++ [Subscriber.relay q.1, Subscriber.relay q.1] })) ∧
    (SimplePqTestResultViewBroker.emitOnSlot
        (SimplePqTestResultViewBroker.activate (SimplePqTestResultViewBroker.activate
          ((PqTestResultViewPanel.createOrShow tb initialState).1)))
        "latestPqTestResult" v).2
      = [Event.post "OnOneValueUpdated" "latestPqTestResult" v,
         Event.post "OnOneValueUpdated" "latestPqTestResult" v] := by
  constructor
  · simp [SimplePqTestResultViewBroker.activate, ValueEventEmitter.subscribe,
      List.map_map, Function.comp]
  · rfl

/-- Claim C9: with the relay subscribed but no panel in existence, value
updates are silently dropped — stored but neither posted nor queued; once a
panel is created and reports `onReady`, it receives exactly one post carrying
the latest stored value (no replay of the dropped update). -/
theorem update_without_panel_dropped (v1 v2 : PQValue) (tb : Nat → Bool) :
    (SimplePqTestResultViewBroker.emitOnSlot
        (SimplePqTestResultViewBroker.activate initialState)
        "latestPqTestResult" v1).2 = [] ∧
    (SimplePqTestResultViewBroker.emitOnSlot
        (SimplePqTestResultViewBroker.emitOnSlot
          (SimplePqTestResultViewBroker.activate initialState)
          "latestPqTestResult" v1).1 "latestPqTestResult" v2).2 = [] ∧
    PqTestResultViewPanel.handleMessage
        (PqTestResultViewPanel.createOrShow tb
          (SimplePqTestResultViewBroker.emitOnSlot
            (SimplePqTestResultViewBroker.emitOnSlot
              (SimplePqTestResultViewBroker.activate initialState)
              "latestPqTestResult" v1).1 "latestPqTestResult" v2).1).1
        { type := "onReady" }
      = ((PqTestResultViewPanel.createOrShow tb
          (SimplePqTestResultViewBroker.emitOnSlot
            (SimplePqTestResultViewBroker.emitOnSlot
              (SimplePqTestResultViewBroker.activate initialState)
              "latestPqTestResult" v1).1 "latestPqTestResult" v2).1).1,
         [Event.post "OnOneValueUpdated" "latestPqTestResult" v2]) :=
  ⟨rfl, rfl, rfl⟩

/-- Claim C10: `dispose()` clears the singleton reference as its first action:
whatever the later steps do — even when disposing the surface throws
(`surfaceThrows = true`, so the release loop never runs) and for any owned
disposables — the resulting state has no current panel, and a subsequent
`createOrShow` takes the creation branch (a fresh instance, not a reuse). -/
theorem dispose_clears_singleton_first (f : Bool) (s : SysState) (p : Panel)
    (tb : Nat → Bool) :
    (PqTestResultViewPanel.dispose f s p).1.currentPanel = none ∧
    PqTestResultViewPanel.createOrShow tb (PqTestResultViewPanel.dispose f s p).1
      = ({ (PqTestResultViewPanel.dispose f s p).1
            with currentPanel := some (PqTestResultViewPanel.construct tb).1 },
         Event.executeCommand "workbench.action.editorLayoutTwoColumns"
           :: Event.createPanel :: (PqTestResultViewPanel.construct tb).2) := by
  cases f <;>
    simp [PqTestResultViewPanel.dispose, PqTestResultViewPanel.createOrShow]

end PQSdk
